import Mathlib

/-!
Shallow embedding of the ChatInterface component of the llm-council
frontend: the pending-input submission logic, keyboard handling, the
attachment upload and removal handlers, and the per-stage rendering
conditions of assistant messages. Each definition mirrors one piece of
the component; external collaborators (send, upload, delete) are
modelled by their observable results, and the component state
(draft text, upload status, attachment list) is passed explicitly.
-/

namespace LLMCouncil

/-- Model of the JavaScript String.prototype.trim: drop leading and
trailing whitespace characters. -/
def jsTrim (s : String) : String :=
  String.mk (((s.data.dropWhile Char.isWhitespace).reverse.dropWhile
    Char.isWhitespace).reverse)

/-- JavaScript truthiness of a string: truthy iff non-empty. -/
def strTruthy (s : String) : Bool :=
  s != ""

/-- One tracked attachment: name as reported by the upload collaborator,
id generated locally from Date.now() at the time the upload resolved. -/
structure UploadedFile where
  name : String
  id : Nat
  deriving Repr, DecidableEq

/-- The component state owned by ChatInterface: the draft text of the
input box, the transient upload status string, and the attachment list. -/
structure ChatState where
  input : String
  uploadStatus : String
  uploadedFiles : List UploadedFile
  deriving Repr, DecidableEq

/-- Initial useState values of the component. -/
def initialChatState : ChatState :=
  { input := "", uploadStatus := "", uploadedFiles := [] }

/-- Result of handleSubmit: the list of texts passed to onSendMessage
during the call (empty or a singleton) and the state afterwards. -/
def handleSubmit (isLoading : Bool) (st : ChatState) :
    List String × ChatState :=
  if strTruthy (jsTrim st.input) && !isLoading then
    ([st.input], { st with input := "" })
  else
    ([], st)

/-- A keyboard event as seen by handleKeyDown. -/
structure KeyEvent where
  key : String
  shiftKey : Bool
  deriving Repr, DecidableEq

/-- handleKeyDown: on Enter without Shift it prevents the default
(no literal newline is inserted) and invokes handleSubmit; on every
other key, Shift+Enter included, it does nothing, so the default
behaviour (for Enter: inserting a literal newline) proceeds.
Returns (defaultPrevented, texts sent, state afterwards). -/
def handleKeyDown (e : KeyEvent) (isLoading : Bool) (st : ChatState) :
    Bool × List String × ChatState :=
  if e.key == "Enter" && !e.shiftKey then
    (true, handleSubmit isLoading st)
  else
    (false, [], st)

/-- Disabled condition of the send button. -/
def sendButtonDisabled (isLoading : Bool) (st : ChatState) : Bool :=
  !strTruthy (jsTrim st.input) || isLoading

/-- Result of the awaited onUploadFile collaborator. -/
inductive UploadResult where
  | success (filename : String)
  | failure (message : String)
  deriving Repr, DecidableEq

/-- Result of the awaited onDeleteFile collaborator. -/
inductive DeleteResult where
  | success
  | failure (message : String)
  deriving Repr, DecidableEq

/-- handleFileChange: takes the selected-files list of the change event
(absent or a list), the collaborator result and the Date.now() value at
resolution time. Returns the state afterwards and whether the upload
collaborator was called. When no file is selected it returns before
touching any state; on success it clears the status and appends the
new UploadedFile; on failure it sets the status to an error message and
leaves the attachment list unchanged. -/
def handleFileChange (files : Option (List String)) (res : UploadResult)
    (now : Nat) (st : ChatState) : ChatState × Bool :=
  match files.bind List.head? with
  | none => (st, false)
  | some _ =>
    match res with
    | UploadResult.success filename =>
        ({ st with
            uploadStatus := "",
            uploadedFiles := st.uploadedFiles ++ [⟨filename, now⟩] }, true)
    | UploadResult.failure m =>
        ({ st with uploadStatus := "Error: " ++ m }, true)

/-- handleRemoveFile: on success of the delete collaborator it keeps the
attachments whose name differs from the given filename; on failure it
sets the status to an error message and leaves the list unchanged. -/
def handleRemoveFile (filename : String) (res : DeleteResult)
    (st : ChatState) : ChatState :=
  match res with
  | DeleteResult.success =>
      { st with
          uploadedFiles := st.uploadedFiles.filter (fun f => f.name != filename) }
  | DeleteResult.failure m =>
      { st with uploadStatus := "Error removing file: " ++ m }


/-! Messages and the per-stage rendering conditions. -/

/-- The loading flags of a message. -/
structure LoadingFlags where
  stage1 : Bool
  stage2 : Bool
  stage3 : Bool
  deriving Repr, DecidableEq

/-- Stage 1 payload: model identifier to response text. -/
abbrev Stage1Data := List (String × String)

/-- Stage 2 payload: the per-model ranking entries, passed through to
the Stage2 sub-renderer unchanged. -/
abbrev Stage2Data := List (String × String)

/-- Stage 3 payload: an object whose response field carries the final
synthesized text (the empty string plays the role of a missing or
falsy response). -/
structure Stage3Data where
  response : String
  deriving Repr, DecidableEq

/-- Message metadata: the label-to-model identity mapping and the
aggregate rankings, parallel to the stage2 payload. -/
structure Metadata where
  label_to_model : Option (List (String × String))
  aggregate_rankings : Option (List (String × Nat))
  deriving Repr, DecidableEq

/-- A conversation message as rendered by ChatInterface. -/
structure Message where
  role : String
  content : String
  stage1 : Option Stage1Data
  stage2 : Option Stage2Data
  stage3 : Option Stage3Data
  metadata : Option Metadata
  loading : Option LoadingFlags
  deriving Repr, DecidableEq

/-- msg.loading?.stageN with JavaScript optional chaining: false when
the loading object is absent. -/
def loadingFlag (msg : Message) (f : LoadingFlags → Bool) : Bool :=
  match msg.loading with
  | some l => f l
  | none => false

/-- Truthiness of msg.stage3?.response. -/
def stage3ResponseTruthy (msg : Message) : Bool :=
  match msg.stage3 with
  | some d => strTruthy d.response
  | none => false

/-- The stage 3 spinner renders iff msg.loading?.stage3 is truthy and
msg.stage3?.response is falsy. -/
def stage3SpinnerShown (msg : Message) : Bool :=
  loadingFlag msg (fun l => l.stage3) && !stage3ResponseTruthy msg

/-- The Stage3 sub-renderer renders iff msg.stage3 is present. -/
def stage3ContentShown (msg : Message) : Bool :=
  msg.stage3.isSome

/-- The props handed to the Stage2 sub-renderer. -/
structure Stage2Props where
  rankings : Stage2Data
  labelToModel : Option (List (String × String))
  aggregateRankings : Option (List (String × Nat))
  deriving Repr, DecidableEq

/-- The stage 2 rendering of a message: when msg.stage2 is present the
Stage2 sub-renderer receives the stage2 payload together with
msg.metadata?.label_to_model and msg.metadata?.aggregate_rankings. -/
def stage2Render (msg : Message) : Option Stage2Props :=
  match msg.stage2 with
  | none => none
  | some r =>
      some { rankings := r,
             labelToModel := msg.metadata.bind Metadata.label_to_model,
             aggregateRankings := msg.metadata.bind Metadata.aggregate_rankings }


/-! A session trace of attachment events, for the id-uniqueness claim. -/

/-- One attachment-affecting event of a session: a file-selection event
together with the result of its upload call and the Date.now() value at
resolution, or a removal click together with the result of its delete
call. -/
inductive SessionEvent where
  | fileSel (files : Option (List String)) (res : UploadResult) (now : Nat)
  | fileRem (filename : String) (res : DeleteResult)
  deriving Repr, DecidableEq

/-- Run one session event against the component state. -/
def sessionStep (st : ChatState) (e : SessionEvent) : ChatState :=
  match e with
  | SessionEvent.fileSel files res now => (handleFileChange files res now st).1
  | SessionEvent.fileRem filename res => handleRemoveFile filename res st

/-- Run a session trace from a starting state. -/
def runSession (es : List SessionEvent) (st : ChatState) : ChatState :=
  es.foldl sessionStep st

/-- The Date.now() values of the file-selection events of a trace. -/
def uploadTimes : List SessionEvent → List Nat
  | [] => []
  | SessionEvent.fileSel _ _ now :: es => now :: uploadTimes es
  | SessionEvent.fileRem _ _ :: es => uploadTimes es


/-! Concrete fixtures used by counterexamples and witnesses. -/

/-- An assistant message whose stage3 payload is present but carries an
empty response, while the stage 3 loading flag is still set. -/
def stage3EdgeMsg : Message :=
  { role := "assistant", content := "", stage1 := none, stage2 := none,
    stage3 := some { response := "" }, metadata := none,
    loading := some { stage1 := false, stage2 := false, stage3 := true } }

/-- An assistant message with a completed stage 3 response and a stale
stage 3 loading flag. -/
def stage3ReadyMsg : Message :=
  { role := "assistant", content := "", stage1 := none, stage2 := none,
    stage3 := some { response := "done" }, metadata := none,
    loading := some { stage1 := false, stage2 := false, stage3 := true } }

/-- An assistant message carrying a stage2 payload together with
metadata. -/
def stage2Msg : Message :=
  { role := "assistant", content := "",
    stage1 := none,
    stage2 := some [("model-a", "ranking")],
    stage3 := none,
    metadata := some { label_to_model := some [("A", "model-a")],
                       aggregate_rankings := some [("model-a", 1)] },
    loading := none }

/-- A state tracking two attachments that share a filename. -/
def dupFilesState : ChatState :=
  { input := "", uploadStatus := "",
    uploadedFiles := [{ name := "a.pdf", id := 1 }, { name := "a.pdf", id := 2 }] }


/-! Helper lemmas shared by several results. -/

/-- A string append whose left part is non-empty is non-empty. -/
theorem append_ne_empty_left (s t : String) (h : s.data ≠ []) : s ++ t ≠ "" := by
  cases s with
  | mk ds =>
    cases t with
    | mk dt =>
      intro heq
      apply h
      have hdata : ds ++ dt = [] := congrArg String.data heq
      exact (List.append_eq_nil.mp hdata).1

/-- C1, counterexample: with the draft " hi " and no in-flight
conversation, handleSubmit passes the raw draft " hi " to the send
collaborator, not the trimmed text "hi". -/
theorem submit_untrimmed_cex :
    (handleSubmit false { input := " hi ", uploadStatus := "", uploadedFiles := [] }).1
      = [" hi "] ∧
    jsTrim " hi " = "hi" ∧ (" hi " : String) ≠ "hi" :=
  ⟨rfl, by decide, by decide⟩

/-- C1, amended: handleSubmit is a no-op when the trimmed draft is
empty or isLoading is true; otherwise it invokes the send collaborator
exactly once with the original, untrimmed draft text, clears the draft,
and leaves the rest of the state unchanged. -/
theorem submit_guard_and_payload (l : Bool) (st : ChatState) :
    (jsTrim st.input = "" ∨ l = true → handleSubmit l st = ([], st)) ∧
    (jsTrim st.input ≠ "" → l = false →
      (handleSubmit l st).1 = [st.input] ∧
      (handleSubmit l st).2.input = "" ∧
      (handleSubmit l st).2.uploadStatus = st.uploadStatus ∧
      (handleSubmit l st).2.uploadedFiles = st.uploadedFiles) := by
  constructor
  · rintro (h | h) <;> simp [handleSubmit, strTruthy, h]
  · intro h hl
    subst hl
    simp [handleSubmit, strTruthy, h]

/-- C1, witness: the guard blocks a send while loading, and with the
draft " hi " not loading the raw draft is sent. -/
theorem submit_guard_and_payload_wit :
    handleSubmit true { input := "hi", uploadStatus := "", uploadedFiles := [] } =
      ([], { input := "hi", uploadStatus := "", uploadedFiles := [] }) ∧
    (handleSubmit false { input := " hi ", uploadStatus := "", uploadedFiles := [] }).1
      = [" hi "] :=
  ⟨(submit_guard_and_payload true _).1 (Or.inr rfl),
   ((submit_guard_and_payload false _).2 (by decide) rfl).1⟩

/-- C4: the disabled condition of the send button is false exactly when
the trimmed draft is non-empty and isLoading is false, and it is true
exactly when handleSubmit is a no-op, so the two guards never
diverge. -/
theorem send_button_matches_guard (l : Bool) (st : ChatState) :
    (sendButtonDisabled l st = false ↔ (jsTrim st.input ≠ "" ∧ l = false)) ∧
    (sendButtonDisabled l st = true ↔ handleSubmit l st = ([], st)) := by
  cases l with
  | false =>
    by_cases h : jsTrim st.input = "" <;>
      simp [sendButtonDisabled, handleSubmit, strTruthy, h, Prod.ext_iff]
  | true =>
    by_cases h : jsTrim st.input = "" <;>
      simp [sendButtonDisabled, handleSubmit, strTruthy, h]

/-- C9: Enter without Shift prevents the default newline and has exactly
the effect of handleSubmit; Shift+Enter leaves the default newline
insertion in place and sends nothing; any other key sends nothing and
changes nothing. -/
theorem keydown_correct (e : KeyEvent) (l : Bool) (st : ChatState) :
    (e.key = "Enter" → e.shiftKey = false →
      handleKeyDown e l st = (true, handleSubmit l st)) ∧
    (e.shiftKey = true → handleKeyDown e l st = (false, [], st)) ∧
    (e.key ≠ "Enter" → handleKeyDown e l st = (false, [], st)) := by
  refine ⟨?_, ?_, ?_⟩
  · intro h1 h2
    simp [handleKeyDown, h1, h2]
  · intro h
    simp [handleKeyDown, h]
  · intro h
    simp [handleKeyDown, h]

/-- C9, witness: the three keyboard cases at the concrete draft "hi":
Enter submits, Shift+Enter does not, the key "a" does not. -/
theorem keydown_correct_wit :
    handleKeyDown { key := "Enter", shiftKey := false } false
        { input := "hi", uploadStatus := "", uploadedFiles := [] } =
      (true, handleSubmit false { input := "hi", uploadStatus := "", uploadedFiles := [] }) ∧
    handleKeyDown { key := "Enter", shiftKey := true } false
        { input := "hi", uploadStatus := "", uploadedFiles := [] } =
      (false, [], { input := "hi", uploadStatus := "", uploadedFiles := [] }) ∧
    handleKeyDown { key := "a", shiftKey := false } false
        { input := "hi", uploadStatus := "", uploadedFiles := [] } =
      (false, [], { input := "hi", uploadStatus := "", uploadedFiles := [] }) :=
  ⟨(keydown_correct _ false _).1 rfl rfl,
   (keydown_correct _ false _).2.1 rfl,
   (keydown_correct _ false _).2.2 (by decide)⟩

/-- C10: a file-selection event whose selected-files list is absent or
empty makes handleFileChange a complete no-op: the upload collaborator
is not called and the state is returned unchanged. -/
theorem no_file_selected_noop (files : Option (List String)) (res : UploadResult)
    (now : Nat) (st : ChatState)
    (h : files = none ∨ files = some []) :
    handleFileChange files res now st = (st, false) := by
  rcases h with h | h <;> subst h <;> rfl

/-- C10, witness: an absent file list with a would-be successful result
leaves the initial state untouched. -/
theorem no_file_selected_noop_wit :
    handleFileChange none (UploadResult.success "a.pdf") 7 initialChatState =
      (initialChatState, false) :=
  no_file_selected_noop none (UploadResult.success "a.pdf") 7 initialChatState
    (Or.inl rfl)

/-- C5: when the upload collaborator fails, the attachment set and the
draft are unchanged and the status is the non-empty string built from
the failure message. -/
theorem upload_failure_atomic (file : String) (rest : List String) (m : String)
    (now : Nat) (st : ChatState) :
    (handleFileChange (some (file :: rest)) (UploadResult.failure m) now st).1.uploadedFiles
      = st.uploadedFiles ∧
    (handleFileChange (some (file :: rest)) (UploadResult.failure m) now st).1.uploadStatus
      = "Error: " ++ m ∧
    (handleFileChange (some (file :: rest)) (UploadResult.failure m) now st).1.uploadStatus
      ≠ "" ∧
    (∃ p : String,
      (handleFileChange (some (file :: rest)) (UploadResult.failure m) now st).1.uploadStatus
        = p ++ m) ∧
    (handleFileChange (some (file :: rest)) (UploadResult.failure m) now st).1.input
      = st.input :=
  ⟨rfl, rfl, append_ne_empty_left "Error: " m (by decide), ⟨"Error: ", rfl⟩, rfl⟩

/-- C6: when the upload collaborator succeeds with a filename, the
attachment set afterwards is the previous set with exactly one new entry
appended, named by the reported filename, and the status is cleared to
the empty string. -/
theorem upload_success_appends (file : String) (rest : List String) (fn : String)
    (now : Nat) (st : ChatState) :
    (handleFileChange (some (file :: rest)) (UploadResult.success fn) now st).1.uploadedFiles
      = st.uploadedFiles ++ [{ name := fn, id := now }] ∧
    (handleFileChange (some (file :: rest)) (UploadResult.success fn) now st).1.uploadStatus
      = "" ∧
    (handleFileChange (some (file :: rest)) (UploadResult.success fn) now st).1.input
      = st.input :=
  ⟨rfl, rfl, rfl⟩

/-- C3, counterexample: with two tracked attachments both named a.pdf,
a successful removal of a.pdf empties the set, instead of keeping the
later duplicate as the claim states. -/
theorem remove_deletes_duplicates_cex :
    (handleRemoveFile "a.pdf" DeleteResult.success dupFilesState).uploadedFiles = [] ∧
    ([] : List UploadedFile) ≠ [{ name := "a.pdf", id := 2 }] :=
  ⟨rfl, by decide⟩

/-- C3, amended: a successful removal keeps exactly the tracked
attachments whose name differs from the given filename, removing every
entry of that name, duplicates included; a failed removal leaves the
set unchanged and sets a non-empty error status built from the failure
message. -/
theorem remove_correct (filename : String) (st : ChatState) :
    (∀ f : UploadedFile,
        f ∈ (handleRemoveFile filename DeleteResult.success st).uploadedFiles ↔
          f ∈ st.uploadedFiles ∧ f.name ≠ filename) ∧
    (∀ m : String,
        (handleRemoveFile filename (DeleteResult.failure m) st).uploadedFiles
          = st.uploadedFiles ∧
        (handleRemoveFile filename (DeleteResult.failure m) st).uploadStatus
          = "Error removing file: " ++ m ∧
        (handleRemoveFile filename (DeleteResult.failure m) st).uploadStatus ≠ "") := by
  constructor
  · intro f
    simp [handleRemoveFile, List.mem_filter]
  · intro m
    exact ⟨rfl, rfl, append_ne_empty_left "Error removing file: " m (by decide)⟩

/-- C2, counterexample: a message whose stage 3 loading flag is set and
whose stage3 payload is present but carries an empty response still
renders the stage 3 spinner, so the presence of stage3 data does not by
itself suppress the pending state. -/
theorem stage3_spinner_despite_data_cex :
    loadingFlag stage3EdgeMsg (fun l => l.stage3) = true ∧
    stage3EdgeMsg.stage3.isSome = true ∧
    stage3ContentShown stage3EdgeMsg = true ∧
    stage3SpinnerShown stage3EdgeMsg = true :=
  ⟨rfl, rfl, rfl, rfl⟩

/-- C2, amended: for a message whose stage3 payload carries a truthy
(non-empty) response, the stage 3 rendering is ready and never pending,
regardless of the loading flag: the final answer renders and the
spinner is suppressed. -/
theorem stage3_response_suppresses_spinner (msg : Message) (d : Stage3Data)
    (h1 : msg.stage3 = some d) (h2 : d.response ≠ "") :
    stage3ContentShown msg = true ∧ stage3SpinnerShown msg = false := by
  constructor
  · simp [stage3ContentShown, h1]
  · simp [stage3SpinnerShown, stage3ResponseTruthy, strTruthy, h1, h2]

/-- C2, witness: a completed stage 3 response with a stale loading flag
renders ready with no spinner. -/
theorem stage3_response_suppresses_spinner_wit :
    stage3ContentShown stage3ReadyMsg = true ∧
    stage3SpinnerShown stage3ReadyMsg = false :=
  stage3_response_suppresses_spinner stage3ReadyMsg { response := "done" } rfl
    (by decide)

/-- C7: whenever a message carries a stage2 payload, the Stage2
sub-renderer receives that payload together with the label-to-model
mapping and the aggregate rankings read from the metadata field of the
same message, not from the stage2 payload. -/
theorem stage2_props_from_metadata (msg : Message) (r : Stage2Data)
    (h : msg.stage2 = some r) :
    ∃ p : Stage2Props, stage2Render msg = some p ∧
      p.rankings = r ∧
      p.labelToModel = msg.metadata.bind Metadata.label_to_model ∧
      p.aggregateRankings = msg.metadata.bind Metadata.aggregate_rankings := by
  refine ⟨{ rankings := r,
            labelToModel := msg.metadata.bind Metadata.label_to_model,
            aggregateRankings := msg.metadata.bind Metadata.aggregate_rankings },
          ?_, rfl, rfl, rfl⟩
  simp [stage2Render, h]

/-- C7, witness: on a concrete message the Stage2 props carry the
metadata fields of that message. -/
theorem stage2_props_from_metadata_wit :
    ∃ p : Stage2Props, stage2Render stage2Msg = some p ∧
      p.rankings = [("model-a", "ranking")] ∧
      p.labelToModel = some [("A", "model-a")] ∧
      p.aggregateRankings = some [("model-a", 1)] := by
  obtain ⟨p, h1, h2, h3, h4⟩ :=
    stage2_props_from_metadata stage2Msg [("model-a", "ranking")] rfl
  exact ⟨p, h1, h2, h3.trans rfl, h4.trans rfl⟩

/-- C8, counterexample: two successful uploads resolving at the same
Date.now() value 5 produce two distinct tracked attachments with equal
ids, so id uniqueness fails within a session. -/
theorem duplicate_id_cex :
    (runSession
        [SessionEvent.fileSel (some ["f1"]) (UploadResult.success "a.pdf") 5,
         SessionEvent.fileSel (some ["f2"]) (UploadResult.success "b.pdf") 5]
        initialChatState).uploadedFiles =
      [{ name := "a.pdf", id := 5 }, { name := "b.pdf", id := 5 }] ∧
    ({ name := "a.pdf", id := 5 } : UploadedFile) ≠ { name := "b.pdf", id := 5 } ∧
    UploadedFile.id { name := "a.pdf", id := 5 }
      = UploadedFile.id { name := "b.pdf", id := 5 } :=
  ⟨rfl, by decide, rfl⟩

/-- Invariant carried through a session trace: if the upcoming upload
times are distinct among themselves and disjoint from the ids already
tracked, distinctness of the tracked ids is preserved. -/
theorem runSession_ids_nodup_aux (es : List SessionEvent) (st : ChatState)
    (hn : (uploadTimes es).Nodup)
    (hs : (st.uploadedFiles.map UploadedFile.id).Nodup)
    (hd : ∀ f ∈ st.uploadedFiles, f.id ∉ uploadTimes es) :
    ((runSession es st).uploadedFiles.map UploadedFile.id).Nodup := by
  induction es generalizing st with
  | nil => exact hs
  | cons e es ih =>
    cases e with
    | fileSel files res now =>
      have hn2 : (uploadTimes es).Nodup := (List.nodup_cons.mp hn).2
      have hnow : now ∉ uploadTimes es := (List.nodup_cons.mp hn).1
      have hstep : runSession (SessionEvent.fileSel files res now :: es) st
          = runSession es (handleFileChange files res now st).1 := rfl
      rw [hstep]
      cases hfile : files.bind List.head? with
      | none =>
        have hid : (handleFileChange files res now st).1 = st := by
          simp [handleFileChange, hfile]
        rw [hid]
        exact ih st hn2 hs fun f hf hmem =>
          hd f hf (List.mem_cons_of_mem _ hmem)
      | some x =>
        cases res with
        | success fn =>
          have hid : (handleFileChange files (UploadResult.success fn) now st).1 =
              { st with uploadStatus := "",
                        uploadedFiles := st.uploadedFiles ++ [⟨fn, now⟩] } := by
            simp [handleFileChange, hfile]
          rw [hid]
          refine ih _ hn2 ?_ ?_
          · rw [List.map_append]
            rw [List.nodup_append]
            refine ⟨hs, List.nodup_singleton now, ?_⟩
            intro a ha hb
            simp only [List.map_cons, List.map_nil, List.mem_singleton] at hb
            subst hb
            obtain ⟨f, hf, hfid⟩ := List.mem_map.mp ha
            exact hd f hf (hfid ▸ List.mem_cons_self _ _)
          · intro f hf
            rcases List.mem_append.mp hf with hold | hnew
            · exact fun hmem => hd f hold (List.mem_cons_of_mem _ hmem)
            · simp only [List.mem_singleton] at hnew
              subst hnew
              exact hnow
        | failure m =>
          have hid : (handleFileChange files (UploadResult.failure m) now st).1 =
              { st with uploadStatus := "Error: " ++ m } := by
            simp [handleFileChange, hfile]
          rw [hid]
          exact ih _ hn2 hs fun f hf hmem =>
            hd f hf (List.mem_cons_of_mem _ hmem)
    | fileRem filename res =>
      have hstep : runSession (SessionEvent.fileRem filename res :: es) st
          = runSession es (handleRemoveFile filename res st) := rfl
      rw [hstep]
      cases res with
      | success =>
        refine ih _ hn ?_ ?_
        · exact List.Nodup.sublist
            ((List.filter_sublist st.uploadedFiles).map UploadedFile.id) hs
        · intro f hf
          exact hd f (List.mem_of_mem_filter hf)
      | failure m =>
        exact ih _ hn hs hd

/-- C8, amended: within a session starting from the initial state, the
ids of the tracked attachments are pairwise distinct provided the
Date.now() values at which the uploads of the session resolved are
pairwise distinct; two uploads resolving in the same millisecond
receive equal ids. -/
theorem ids_nodup_of_distinct_times (es : List SessionEvent)
    (h : (uploadTimes es).Nodup) :
    ((runSession es initialChatState).uploadedFiles.map UploadedFile.id).Nodup :=
  runSession_ids_nodup_aux es initialChatState h List.nodup_nil
    (fun f hf => absurd hf (List.not_mem_nil f))

/-- C8, witness: a session of two uploads resolving at times 1 and 2
yields attachments with distinct ids. -/
theorem ids_nodup_of_distinct_times_wit :
    ((runSession
        [SessionEvent.fileSel (some ["f1"]) (UploadResult.success "a.pdf") 1,
         SessionEvent.fileSel (some ["f2"]) (UploadResult.success "b.pdf") 2]
        initialChatState).uploadedFiles.map UploadedFile.id).Nodup :=
  ids_nodup_of_distinct_times _ (by decide)

end LLMCouncil
